import Mathlib

/-!
Verification development for the Cartographer notification
preference-resolution and scheduled-broadcast dispatch engine.

The data model below is embedded from the TypeScript sources
(`useNotifications` composable, broadcast modal component). The
server-side pipeline components (Preference Resolver, Quiet-Hours
Evaluator, Rate Limiter, Dispatcher, Broadcast Scheduler) are not part
of the visible sources; where a definition models one of them it is
marked `Modelled from the spec:` in its doc comment and follows the
spec's algorithm wording.
-/

namespace Cartographer



/-- Priority enumeration from the source
(`NotificationPriority = 'low' | 'medium' | 'high' | 'critical'`). -/
inductive NotificationPriority
  | low
  | medium
  | high
  | critical
deriving DecidableEq, Repr

/-- Numeric rank of a priority, giving the total order
low < medium < high < critical used by threshold and bypass checks. -/
def NotificationPriority.rank : NotificationPriority → Nat
  | .low => 0
  | .medium => 1
  | .high => 2
  | .critical => 3

/-- Boolean order test: `a` is at or above `b`. -/
def priorityGe (a b : NotificationPriority) : Bool :=
  b.rank ≤ a.rank

/-- Boolean strict order test: `a` is strictly below `b`. -/
def priorityLt (a b : NotificationPriority) : Bool :=
  a.rank < b.rank

/-- Closed notification type enumeration from the source
(`NotificationType` union in the notifications composable). -/
inductive NotificationType
  | device_offline
  | device_online
  | device_degraded
  | anomaly_detected
  | high_latency
  | packet_loss
  | isp_issue
  | security_alert
  | scheduled_maintenance
  | system_status
  | cartographer_down
  | cartographer_up
deriving DecidableEq, Repr

/-- System default priority of each notification type, embedded from the
`defaultPriority` fields of `NOTIFICATION_TYPE_INFO` in the source. -/
def defaultPriority : NotificationType → NotificationPriority
  | .device_offline => .high
  | .device_online => .low
  | .device_degraded => .medium
  | .anomaly_detected => .high
  | .high_latency => .medium
  | .packet_loss => .medium
  | .isp_issue => .high
  | .security_alert => .critical
  | .scheduled_maintenance => .low
  | .system_status => .low
  | .cartographer_down => .critical
  | .cartographer_up => .medium

/-- Email channel configuration from the source (`EmailConfig`). -/
structure EmailConfig where
  enabled : Bool
  email_address : String
deriving DecidableEq, Repr

/-- Discord delivery mode from the source
(`delivery_method: 'channel' | 'dm'`). -/
inductive DiscordDeliveryMethod
  | channel
  | dm
deriving DecidableEq, Repr

/-- Discord channel routing from the source (`DiscordChannelConfig`);
only the routing identifiers matter for resolution. -/
structure DiscordChannelConfig where
  guild_id : String
  channel_id : String
deriving DecidableEq, Repr

/-- Discord channel configuration from the source (`DiscordConfig`). -/
structure DiscordConfig where
  enabled : Bool
  delivery_method : DiscordDeliveryMethod
  discord_user_id : Option String
  channel_config : Option DiscordChannelConfig
deriving DecidableEq, Repr

/-- Per-(user, network) preference record, embedded from the source
interface `NotificationPreferences`: enabled flag, per-channel
configuration, enabled notification types, minimum priority threshold,
sparse per-type priority overrides (`notification_type_priorities`),
and the hourly rate limit. Quiet-hours fields are passed to the
quiet-hours evaluator separately below. -/
structure NotificationPreferences where
  enabled : Bool
  email : EmailConfig
  discord : DiscordConfig
  enabled_notification_types : List NotificationType
  minimum_priority : NotificationPriority
  notification_type_priorities : NotificationType → Option NotificationPriority
  max_notifications_per_hour : Nat

/-- An event entering the pipeline: its type and the priority it was
emitted with (the system default; may be absent). -/
structure Event where
  eventType : NotificationType
  eventPriority : Option NotificationPriority
deriving DecidableEq, Repr

/-- Suppression reasons named by the spec's resolver algorithm. -/
inductive SuppressReason
  | disabled
  | below_threshold
  | no_channel
deriving DecidableEq, Repr

/-- Delivery channels of the system. -/
inductive DeliveryChannel
  | email
  | discord
deriving DecidableEq, Repr

/-- A resolved delivery decision: effective priority and channels. -/
structure ResolvedDelivery where
  effective_priority : NotificationPriority
  channels : List DeliveryChannel
deriving DecidableEq, Repr

/-- Resolver outcome: a delivery or a suppression with its reason. -/
inductive ResolveResult
  | suppressed (reason : SuppressReason)
  | delivered (d : ResolvedDelivery)
deriving DecidableEq, Repr

/-- Modelled from the spec: the effective priority computed by the
Preference Resolver (whose server-side code is not among the visible
sources) — the `notification_type_priorities` override for the event
type when present, else the type's system default priority. -/
def effectivePriority (p : NotificationPreferences) (t : NotificationType) :
    NotificationPriority :=
  (p.notification_type_priorities t).getD (defaultPriority t)

/-- The email channel is active when enabled and an address is present. -/
def emailActive (c : EmailConfig) : Bool :=
  c.enabled && c.email_address != ""

/-- The Discord channel is active when enabled and a resolvable target
exists for the configured delivery method. -/
def discordActive (d : DiscordConfig) : Bool :=
  d.enabled &&
    match d.delivery_method with
    | .dm => d.discord_user_id.isSome
    | .channel => d.channel_config.isSome

/-- Modelled from the spec: the active channel set of step 4 of the
resolver algorithm. -/
def activeChannels (p : NotificationPreferences) : List DeliveryChannel :=
  (if emailActive p.email then [DeliveryChannel.email] else []) ++
    (if discordActive p.discord then [DeliveryChannel.discord] else [])

/-- Modelled from the spec: `resolve(event, user_prefs)` of the
Preference Resolver, whose server-side code is not among the visible
sources. Steps follow the spec's algorithm: (1) missing record,
disabled record, or event type not enabled gives Suppressed(disabled);
(2) effective priority is the per-type override else the system
default; (3) below the minimum priority gives
Suppressed(below_threshold); (4) empty active channel set gives
Suppressed(no_channel); (5) otherwise a ResolvedDelivery. -/
def resolve (e : Event) (prefs : Option NotificationPreferences) :
    ResolveResult :=
  match prefs with
  | none => .suppressed .disabled
  | some p =>
    if p.enabled = false then .suppressed .disabled
    else if e.eventType ∉ p.enabled_notification_types then
      .suppressed .disabled
    else
      let eff := effectivePriority p e.eventType
      if priorityLt eff p.minimum_priority then .suppressed .below_threshold
      else
        let cs := activeChannels p
        if cs = [] then .suppressed .no_channel
        else .delivered ⟨eff, cs⟩

/-- Sample preference record for the C2 scenario: enabled record,
email channel active, `device_degraded` enabled, minimum priority
high, per-type override `device_degraded → critical`. -/
def scenarioOverridePrefs : NotificationPreferences where
  enabled := true
  email := ⟨true, "owner@example.com"⟩
  discord := ⟨false, .dm, none, none⟩
  enabled_notification_types := [.device_degraded]
  minimum_priority := .high
  notification_type_priorities := fun t =>
    if t = .device_degraded then some .critical else none
  max_notifications_per_hour := 10

/-- Minutes in a day. -/
def minutesPerDay : Int := 1440

/-- Modelled from the spec: conversion of a UTC instant (in minutes
since the epoch) to the user's local minutes-of-day, where the user's
configured IANA timezone (a string in the source record) is abstracted
by its UTC offset in minutes at that instant. The result depends only
on the instant and the user's offset — no server timezone enters. -/
def localMinutesOfDay (nowUtcMinutes tzOffsetMinutes : Int) : Int :=
  (nowUtcMinutes + tzOffsetMinutes).emod minutesPerDay

/-- Modelled from the spec: membership of a local minutes-of-day value
in the quiet-hours window `[start, end)`; a window whose start is later
than its end wraps midnight and spans to the next day. -/
def inQuietWindow (m startMin endMin : Int) : Bool :=
  if startMin ≤ endMin then startMin ≤ m && m < endMin
  else startMin ≤ m || m < endMin

/-- Modelled from the spec: `isSuppressedByQuietHours` of the
Quiet-Hours Evaluator, whose server-side code is not among the visible
sources. Returns false when quiet hours are disabled; returns false
when a bypass priority is set and the effective priority is at or
above it; otherwise reports window membership of the instant converted
into the user's timezone. When no bypass priority is set there is no
bypass: even critical events are held inside the window. -/
def isSuppressedByQuietHours (nowUtcMinutes tzOffsetMinutes : Int)
    (quietEnabled : Bool) (startMin endMin : Int)
    (bypass : Option NotificationPriority)
    (effective : NotificationPriority) : Bool :=
  if !quietEnabled then false
  else
    match bypass with
    | some b =>
      if priorityGe effective b then false
      else inQuietWindow (localMinutesOfDay nowUtcMinutes tzOffsetMinutes)
        startMin endMin
    | none =>
      inQuietWindow (localMinutesOfDay nowUtcMinutes tzOffsetMinutes)
        startMin endMin

/-- Modelled from the spec: the per-(user, network) state of the Rate
Limiter, whose server-side code is not among the visible sources —
the timestamps (in minutes) already counted against the sliding
one-hour window, the overflow metric, and a queue of deferred
deliveries (kept in the model only so the theorems can state that the
limiter never queues anything). -/
structure RateLimiterState where
  counted : List Int
  overflow : Nat
  queued : List Event
deriving DecidableEq, Repr

/-- Number of counted notifications inside the sliding one-hour window
ending at `now` (minutes): timestamps in `(now − 60, now]`. -/
def countInWindow (counted : List Int) (now : Int) : Nat :=
  (counted.filter (fun t => now - 60 < t && t ≤ now)).length

/-- Modelled from the spec: `allow(user, network)` of the Rate
Limiter — the window count compared against
`max_notifications_per_hour`. The event (and hence its priority) is
not an input: no priority is exempt. -/
def rateLimitAllow (st : RateLimiterState) (now : Int) (maxPerHour : Nat) :
    Bool :=
  countInWindow st.counted now < maxPerHour

/-- Outcome of presenting one qualifying event to the rate limiter. -/
inductive RateOutcome
  | allowed
  | droppedOverflow
deriving DecidableEq, Repr

/-- Modelled from the spec: processing one qualifying event at the
rate limiter. An allowed event is counted; an event over the limit is
dropped and counted in the overflow metric — never queued, never
retried. The event argument is not consulted, so priority grants no
exemption. -/
def rateLimitStep (e : Event) (st : RateLimiterState) (now : Int)
    (maxPerHour : Nat) : RateOutcome × RateLimiterState :=
  if rateLimitAllow st now maxPerHour then
    (.allowed, { st with counted := now :: st.counted })
  else
    (.droppedOverflow, { st with overflow := st.overflow + 1 })

/-- Idempotency key of the Dispatcher: (source event/broadcast id,
user id, channel), as named by the spec's glossary. -/
structure DispatchKey where
  sourceId : Nat
  userId : Nat
  channel : DeliveryChannel
deriving DecidableEq, Repr

/-- Outcome recorded on a DeliveryAttempt. -/
inductive AttemptOutcome
  | success
  | failure
  | duplicate
deriving DecidableEq, Repr

/-- Modelled from the spec: the Dispatcher's bookkeeping state, whose
server-side code is not among the visible sources — the
DeliveryAttempt log (key, outcome) and the log of sink invocations. -/
structure DispatcherState where
  attempts : List (DispatchKey × AttemptOutcome)
  sinkCalls : List DispatchKey
deriving DecidableEq, Repr

/-- Whether a DeliveryAttempt already exists for the key. -/
def hasAttempt (st : DispatcherState) (k : DispatchKey) : Bool :=
  st.attempts.any (fun a => a.1 == k)

/-- The DeliveryAttempt records for one key, in order. -/
def attemptsFor (st : DispatcherState) (k : DispatchKey) :
    List (DispatchKey × AttemptOutcome) :=
  st.attempts.filter (fun a => a.1 == k)

/-- Modelled from the spec: one Dispatcher invocation for one
idempotency key. A key with an existing DeliveryAttempt gets a new
record with outcome duplicate and the sink is not invoked; otherwise
the sink is invoked once and a DeliveryAttempt is recorded regardless
of sink success or failure. `sink` abstracts the channel transport. -/
def dispatchOne (sink : DispatchKey → Bool) (st : DispatcherState)
    (k : DispatchKey) : DispatcherState :=
  if hasAttempt st k then
    { st with attempts := st.attempts ++ [(k, .duplicate)] }
  else
    { attempts :=
        st.attempts ++ [(k, if sink k then .success else .failure)],
      sinkCalls := st.sinkCalls ++ [k] }

/-- Broadcast lifecycle status from the source
(`ScheduledBroadcastStatus = 'pending' | 'sent' | 'cancelled' |
'failed'`). -/
inductive ScheduledBroadcastStatus
  | pending
  | sent
  | cancelled
  | failed
deriving DecidableEq, Repr

/-- Scheduled broadcast record, embedded from the source interface
`ScheduledBroadcast`. Instants are epoch milliseconds (UTC); the
originating IANA timezone is kept as a string for display. -/
structure ScheduledBroadcast where
  id : Nat
  network_id : Nat
  title : String
  message : String
  event_type : NotificationType
  priority : NotificationPriority
  scheduled_at : Int
  timezone : String
  created_at : Int
  created_by : String
  status : ScheduledBroadcastStatus
  sent_at : Option Int
  users_notified : Nat
  error_message : Option String
deriving DecidableEq, Repr

/-- Update payload for a pending broadcast, embedded from the
source interface `ScheduledBroadcastUpdate` (all fields optional). -/
structure ScheduledBroadcastUpdate where
  title : Option String
  message : Option String
  event_type : Option NotificationType
  priority : Option NotificationPriority
  scheduled_at : Option Int
  timezone : Option String
deriving DecidableEq, Repr

/-- Update payload carrying no fields at all. -/
def emptyUpdate : ScheduledBroadcastUpdate :=
  ⟨none, none, none, none, none, none⟩

/-- Milliseconds per minute. -/
def msPerMinute : Int := 60000

/-- The minimum scheduling lead time: 5 minutes, in milliseconds
(the source's `minScheduleDateTime` adds 5 minutes to the current
time). -/
def minimumLeadTimeMs : Int := 300000

/-- Validation errors of the broadcast scheduler operations. -/
inductive BroadcastError
  | notPending
  | scheduleTooSoon
deriving DecidableEq, Repr

/-- Modelled from the spec: `create` of the Broadcast Scheduler, whose
server-side code is not among the visible sources. The scheduled
instant must be at least `now` plus the minimum lead time at creation
time; otherwise creation is rejected. A created broadcast starts in
status pending. -/
def createScheduledBroadcast (now scheduledAt : Int) (idv networkId : Nat)
    (title message : String) (ty : NotificationType)
    (pr : NotificationPriority) (tz createdBy : String) :
    Except BroadcastError ScheduledBroadcast :=
  if scheduledAt < now + minimumLeadTimeMs then .error .scheduleTooSoon
  else .ok
    { id := idv, network_id := networkId, title := title,
      message := message, event_type := ty, priority := pr,
      scheduled_at := scheduledAt, timezone := tz, created_at := now,
      created_by := createdBy, status := .pending, sent_at := none,
      users_notified := 0, error_message := none }

/-- Applying an update payload's provided fields to a broadcast. -/
def applyUpdate (b : ScheduledBroadcast) (u : ScheduledBroadcastUpdate) :
    ScheduledBroadcast :=
  { b with
    title := u.title.getD b.title,
    message := u.message.getD b.message,
    event_type := u.event_type.getD b.event_type,
    priority := u.priority.getD b.priority,
    scheduled_at := u.scheduled_at.getD b.scheduled_at,
    timezone := u.timezone.getD b.timezone }

/-- Modelled from the spec: `update` of the Broadcast Scheduler, whose
server-side code is not among the visible sources. Allowed only while
the status is pending; when a new schedule is provided the lead-time
constraint is revalidated against the commit time. Rejection returns
an error and produces no new record, leaving the broadcast unchanged. -/
def updateScheduledBroadcast (b : ScheduledBroadcast)
    (u : ScheduledBroadcastUpdate) (now : Int) :
    Except BroadcastError ScheduledBroadcast :=
  if b.status ≠ .pending then .error .notPending
  else
    match u.scheduled_at with
    | some t =>
      if t < now + minimumLeadTimeMs then .error .scheduleTooSoon
      else .ok (applyUpdate b u)
    | none => .ok (applyUpdate b u)

/-- Modelled from the spec: `cancel` of the Broadcast Scheduler —
allowed only while the status is pending; transitions directly to
cancelled, no delivery occurs. -/
def cancelScheduledBroadcast (b : ScheduledBroadcast) :
    Except BroadcastError ScheduledBroadcast :=
  if b.status ≠ .pending then .error .notPending
  else .ok { b with status := .cancelled }

/-- Modelled from the spec: firing one due broadcast in the scheduler
sweep — only a pending broadcast fires; a successful pipeline run
transitions it to sent with its delivery count, a pipeline that could
not run at all transitions it to failed. -/
def fireScheduledBroadcast (b : ScheduledBroadcast) (pipelineOk : Bool)
    (usersNotified : Nat) (now : Int) :
    Except BroadcastError ScheduledBroadcast :=
  if b.status ≠ .pending then .error .notPending
  else if pipelineOk then
    .ok
      { b with
        status := .sent
        sent_at := some now
        users_notified := usersNotified }
  else .ok { b with status := .failed }

/-- Sample broadcast in terminal status sent, for witnesses. -/
def sentBroadcast : ScheduledBroadcast :=
  { id := 1, network_id := 4, title := "maintenance window",
    message := "router reboot", event_type := .scheduled_maintenance,
    priority := .medium, scheduled_at := 1200000,
    timezone := "America/New_York", created_at := 0,
    created_by := "owner", status := .sent, sent_at := some 1200000,
    users_notified := 3, error_message := none }

/-- Embedded from the source: the `minScheduleDateTime` computed
property (a `datetime-local` `min` bound) takes the current time, adds
5 minutes, and renders `toISOString().slice(0, 16)` — i.e. the UTC
naive date-time truncated to minutes, here represented as the count of
whole minutes. Note the truncation happens in UTC, not in the
browser's local timezone. -/
def minScheduleDateTime (nowMs : Int) : Int :=
  (nowMs + minimumLeadTimeMs) / msPerMinute

/-- The naive local date-time (as whole minutes) displayed for an
instant in a browser whose local offset is `offEastMinutes` minutes
east of UTC. This is also the value `openEditModal` computes via
`new Date(t - getTimezoneOffset() * 60000).toISOString().slice(0, 16)`
(since `getTimezoneOffset()` is minus the eastern offset). -/
def localNaiveMinutes (t offEastMinutes : Int) : Int :=
  (t + offEastMinutes * msPerMinute) / msPerMinute

/-- The instant denoted by a naive local minute value in a browser
whose offset is `offEastMinutes` east of UTC: this is what
`new Date(naiveString)` yields when parsing a `datetime-local`
value. -/
def instantOfNaive (v offEastMinutes : Int) : Int :=
  v * msPerMinute - offEastMinutes * msPerMinute

/-- The browser-side guard: a `datetime-local` input accepts a naive
value `v` exactly when it is at or after the `min` attribute computed
by `minScheduleDateTime`. -/
def guardAccepts (nowMs v : Int) : Bool :=
  minScheduleDateTime nowMs ≤ v

/-- Modelled from the spec: the claim step of the scheduler sweep — an
atomic conditional transition that takes a broadcast out of pending
(committing the fire) exactly when it is still pending, and returns
whether this sweep won the claim. The store-level compare-and-swap is
the atom; any concurrent execution of sweeps is an interleaving of
these atoms. -/
def claimStep (s : ScheduledBroadcastStatus) :
    Bool × ScheduledBroadcastStatus :=
  if s = .pending then (true, .sent) else (false, s)

/-- Runs `n` interleaved sweep claim attempts on one broadcast's
status, returning how many attempts won the claim (fired the
broadcast) and the final status. -/
def runClaims (s : ScheduledBroadcastStatus) :
    Nat → Nat × ScheduledBroadcastStatus
  | 0 => (0, s)
  | n + 1 =>
    let r := claimStep s
    let rest := runClaims r.2 n
    ((if r.1 then 1 else 0) + rest.1, rest.2)

/-- The edit-modal form state, embedded from the component's
`editForm` ref: the editable fields, with the scheduled time held as a
naive local `datetime-local` minute value. -/
structure EditForm where
  title : String
  message : String
  event_type : NotificationType
  priority : NotificationPriority
  scheduledAtNaive : Int
deriving DecidableEq, Repr

/-- Embedded from the source `openEditModal`: copies the broadcast's
fields into the form and converts the UTC `scheduled_at` into the
local `datetime-local` minute value. -/
def openEditForm (b : ScheduledBroadcast) (offEast : Int) : EditForm :=
  { title := b.title
    message := b.message
    event_type := b.event_type
    priority := b.priority
    scheduledAtNaive := localNaiveMinutes b.scheduled_at offEast }

/-- Embedded from the source `saveEdit`: builds the PATCH update
object, including each field only when it differs from the stored
broadcast; the scheduled time is compared as instants (the form's
naive value parsed back as a local date), and when it differs both
`scheduled_at` and `timezone` are included. -/
def saveEditUpdate (b : ScheduledBroadcast) (f : EditForm)
    (offEast : Int) (tzName : String) : ScheduledBroadcastUpdate :=
  { title := if f.title = b.title then none else some f.title
    message := if f.message = b.message then none else some f.message
    event_type :=
      if f.event_type = b.event_type then none else some f.event_type
    priority := if f.priority = b.priority then none else some f.priority
    scheduled_at :=
      if instantOfNaive f.scheduledAtNaive offEast = b.scheduled_at then none
      else some (instantOfNaive f.scheduledAtNaive offEast)
    timezone :=
      if instantOfNaive f.scheduledAtNaive offEast = b.scheduled_at then none
      else some tzName }

/-- The UTC→local-naive→UTC round trip performed by opening the edit
modal and saving: display then re-parse of the scheduled instant. -/
def editRoundTrip (t offEast : Int) : Int :=
  instantOfNaive (localNaiveMinutes t offEast) offEast

/-- Sample pending broadcast whose scheduled instant carries nonzero
seconds (1200500 ms = 20 min 0.5 s), for witnesses. -/
def oddSecondsBroadcast : ScheduledBroadcast :=
  { sentBroadcast with status := .pending, scheduled_at := 1200500 }

/-- C1: if the event type is not a member of the record's enabled
notification types, resolution returns Suppressed(disabled), for every
event (hence regardless of the event's priority) and every preference
record. -/
theorem c1_type_not_enabled_suppressed (e : Event)
    (p : NotificationPreferences)
    (h : e.eventType ∉ p.enabled_notification_types) :
    resolve e (some p) = .suppressed .disabled := by
  unfold resolve
  by_cases he : p.enabled = false <;> simp [he, h]

/-- Witness for C1 at a concrete event and record: a `device_offline`
event of critical priority against the C2 sample record, whose enabled
types are exactly `[device_degraded]`. -/
theorem c1_type_not_enabled_suppressed_witness :
    resolve ⟨.device_offline, some .critical⟩ (some scenarioOverridePrefs) =
      .suppressed .disabled :=
  c1_type_not_enabled_suppressed ⟨.device_offline, some .critical⟩
    scenarioOverridePrefs (by decide)

/-- C2: a per-type priority override always determines the effective
priority, replacing the type's system default even when lower; and in
the spec's scenario (minimum priority high, override
`device_degraded → critical`, system default medium) the event is
delivered at effective priority critical. -/
theorem c2_override_wins_over_default (p : NotificationPreferences)
    (t : NotificationType) (pr : NotificationPriority)
    (h : p.notification_type_priorities t = some pr) :
    effectivePriority p t = pr ∧
    resolve ⟨.device_degraded, some .medium⟩ (some scenarioOverridePrefs) =
      .delivered ⟨.critical, [.email]⟩ := by
  constructor
  · unfold effectivePriority
    rw [h]
    rfl
  · decide

/-- Witness for C2: instantiated at the scenario record and the
`device_degraded → critical` override, with the hypothesis discharged
by evaluation; also shows the override (critical) differs from the
system default (medium), i.e. the downgrade/upgrade is real. -/
theorem c2_override_wins_over_default_witness :
    effectivePriority scenarioOverridePrefs .device_degraded = .critical ∧
    resolve ⟨.device_degraded, some .medium⟩ (some scenarioOverridePrefs) =
      .delivered ⟨.critical, [.email]⟩ :=
  c2_override_wins_over_default scenarioOverridePrefs .device_degraded
    .critical (by decide)

/-- C3: a 22:00–06:00 window (start 1320, end 360, start > end) wraps
midnight: for every UTC instant and user timezone offset whose local
time is 23:30 or 02:00 the window contains it, and when the local time
is 12:00 it does not — only the user's offset matters, no server
timezone appears in the evaluation. In the same window with
bypass priority critical, when the local time is 23:00 a
high-priority event is suppressed while a critical-priority event is
delivered; with no bypass priority set even a critical event is
suppressed. -/
theorem c3_quiet_hours_wrap_and_bypass :
    (∀ u tz : Int, localMinutesOfDay u tz = 1410 →
      inQuietWindow (localMinutesOfDay u tz) 1320 360 = true) ∧
    (∀ u tz : Int, localMinutesOfDay u tz = 120 →
      inQuietWindow (localMinutesOfDay u tz) 1320 360 = true) ∧
    (∀ u tz : Int, localMinutesOfDay u tz = 720 →
      inQuietWindow (localMinutesOfDay u tz) 1320 360 = false) ∧
    (∀ u tz : Int, localMinutesOfDay u tz = 1380 →
      isSuppressedByQuietHours u tz true 1320 360 (some .critical) .high
        = true ∧
      isSuppressedByQuietHours u tz true 1320 360 (some .critical) .critical
        = false ∧
      isSuppressedByQuietHours u tz true 1320 360 none .critical = true) := by
  refine ⟨?_, ?_, ?_, ?_⟩ <;> intro u tz h <;>
    simp [isSuppressedByQuietHours, inQuietWindow, priorityGe,
      NotificationPriority.rank, h]

/-- Witness for C3: concrete instants and offsets realising each local
time, including a nonzero user offset (120 minutes east) for the 23:30
case to exhibit independence from any server clock. -/
theorem c3_quiet_hours_wrap_and_bypass_witness :
    inQuietWindow (localMinutesOfDay 1290 120) 1320 360 = true ∧
    inQuietWindow (localMinutesOfDay 120 0) 1320 360 = true ∧
    inQuietWindow (localMinutesOfDay 720 0) 1320 360 = false ∧
    isSuppressedByQuietHours 1380 0 true 1320 360 (some .critical) .high
      = true ∧
    isSuppressedByQuietHours 1380 0 true 1320 360 (some .critical) .critical
      = false ∧
    isSuppressedByQuietHours 1380 0 true 1320 360 none .critical = true := by
  refine ⟨?_, ?_, ?_, ?_, ?_, ?_⟩
  · exact c3_quiet_hours_wrap_and_bypass.1 1290 120 (by decide)
  · exact c3_quiet_hours_wrap_and_bypass.2.1 120 0 (by decide)
  · exact c3_quiet_hours_wrap_and_bypass.2.2.1 720 0 (by decide)
  · exact (c3_quiet_hours_wrap_and_bypass.2.2.2 1380 0 (by decide)).1
  · exact (c3_quiet_hours_wrap_and_bypass.2.2.2 1380 0 (by decide)).2.1
  · exact (c3_quiet_hours_wrap_and_bypass.2.2.2 1380 0 (by decide)).2.2

/-- C4: once the one-hour window already holds `N` counted
notifications for the (user, network) key, the next qualifying event
in that window is refused: `allow` is false, the event is dropped with
the overflow metric incremented, the counted set and queue are
unchanged (nothing queued or retried), and the result is identical for
every event — in particular critical-priority events get no
exemption. -/
theorem c4_rate_limit_drops_overflow (e : Event) (st : RateLimiterState)
    (now : Int) (N : Nat) (h : N ≤ countInWindow st.counted now) :
    rateLimitAllow st now N = false ∧
    rateLimitStep e st now N =
      (.droppedOverflow, { st with overflow := st.overflow + 1 }) ∧
    ((rateLimitStep e st now N).2.counted = st.counted ∧
      (rateLimitStep e st now N).2.queued = st.queued) ∧
    (∀ e' : Event, rateLimitStep e' st now N = rateLimitStep e st now N) := by
  have hallow : rateLimitAllow st now N = false := by
    simp only [rateLimitAllow, decide_eq_false_iff_not, Nat.not_lt]
    exact h
  refine ⟨hallow, ?_, ?_, fun e' => rfl⟩
  · simp [rateLimitStep, hallow]
  · simp [rateLimitStep, hallow]

/-- Witness for C4 at the spec's scenario: limit 3, three counted
notifications inside the rolling hour, the 4th qualifying event (a
critical one) is dropped and counted as overflow with nothing queued. -/
theorem c4_rate_limit_drops_overflow_witness :
    rateLimitAllow ⟨[10, 20, 30], 0, []⟩ 40 3 = false ∧
    rateLimitStep ⟨.device_offline, some .critical⟩ ⟨[10, 20, 30], 0, []⟩
        40 3 = (.droppedOverflow, ⟨[10, 20, 30], 1, []⟩) :=
  ⟨(c4_rate_limit_drops_overflow ⟨.device_offline, some .critical⟩
      ⟨[10, 20, 30], 0, []⟩ 40 3 (by decide)).1,
    (c4_rate_limit_drops_overflow ⟨.device_offline, some .critical⟩
      ⟨[10, 20, 30], 0, []⟩ 40 3 (by decide)).2.1⟩

/-- C5: from a state with no DeliveryAttempt for key k, dispatching k
twice yields exactly two records for k — the first call's real outcome
followed by a duplicate — and the sink is invoked exactly once across
the two calls (so at most once). -/
theorem c5_dispatch_idempotent (sink : DispatchKey → Bool)
    (st : DispatcherState) (k : DispatchKey)
    (h : hasAttempt st k = false) :
    attemptsFor (dispatchOne sink (dispatchOne sink st k) k) k =
      [(k, if sink k then .success else .failure), (k, .duplicate)] ∧
    (dispatchOne sink (dispatchOne sink st k) k).sinkCalls.count k =
      st.sinkCalls.count k + 1 := by
  have hfilter : st.attempts.filter (fun a => a.1 == k) = [] :=
    List.filter_eq_nil_iff.mpr (List.any_eq_false.mp h)
  have h1 : dispatchOne sink st k =
      { attempts :=
          st.attempts ++ [(k, if sink k then .success else .failure)],
        sinkCalls := st.sinkCalls ++ [k] } := by
    simp [dispatchOne, h]
  have h2 : hasAttempt (dispatchOne sink st k) k = true := by
    simp [h1, hasAttempt]
  have hdup : ∀ st' : DispatcherState, hasAttempt st' k = true →
      dispatchOne sink st' k =
        { st' with attempts := st'.attempts ++ [(k, .duplicate)] } := by
    intro st' h'
    simp [dispatchOne, h']
  rw [hdup _ h2, h1]
  constructor
  · simp [attemptsFor, List.filter_append, hfilter]
  · simp [List.count_append]

/-- Witness for C5: from the empty dispatcher state, a concrete key
dispatched twice through an always-succeeding sink produces the
success record then the duplicate record, with one sink call. -/
theorem c5_dispatch_idempotent_witness :
    attemptsFor
        (dispatchOne (fun _ => true)
          (dispatchOne (fun _ => true) ⟨[], []⟩ ⟨7, 3, .email⟩)
          ⟨7, 3, .email⟩) ⟨7, 3, .email⟩ =
      [(⟨7, 3, .email⟩, .success), (⟨7, 3, .email⟩, .duplicate)] ∧
    (dispatchOne (fun _ => true)
        (dispatchOne (fun _ => true) ⟨[], []⟩ ⟨7, 3, .email⟩)
        ⟨7, 3, .email⟩).sinkCalls.count ⟨7, 3, .email⟩ =
      List.count ⟨7, 3, .email⟩ ([] : List DispatchKey) + 1 :=
  c5_dispatch_idempotent (fun _ => true) ⟨[], []⟩ ⟨7, 3, .email⟩ (by decide)

/-- C6: the status universe is exactly
{pending, sent, cancelled, failed}; update, cancel and fire are all
rejected on any broadcast whose status is not pending (so sent,
cancelled and failed are terminal and the rejected broadcast is left
unchanged, no new record being produced); and update and cancel
succeed only from pending. -/
theorem c6_broadcast_status_machine :
    (∀ s : ScheduledBroadcastStatus,
      s = .pending ∨ s = .sent ∨ s = .cancelled ∨ s = .failed) ∧
    (∀ (b : ScheduledBroadcast) (u : ScheduledBroadcastUpdate) (now : Int),
      b.status ≠ .pending →
        updateScheduledBroadcast b u now = .error .notPending) ∧
    (∀ b : ScheduledBroadcast, b.status ≠ .pending →
      cancelScheduledBroadcast b = .error .notPending) ∧
    (∀ (b : ScheduledBroadcast) (ok : Bool) (n : Nat) (now : Int),
      b.status ≠ .pending →
        fireScheduledBroadcast b ok n now = .error .notPending) ∧
    (∀ (b : ScheduledBroadcast) (u : ScheduledBroadcastUpdate)
      (now : Int) (b' : ScheduledBroadcast),
      updateScheduledBroadcast b u now = .ok b' → b.status = .pending) ∧
    (∀ (b b' : ScheduledBroadcast),
      cancelScheduledBroadcast b = .ok b' → b.status = .pending) := by
  refine ⟨?_, ?_, ?_, ?_, ?_, ?_⟩
  · intro s
    cases s <;> simp
  · intro b u now h
    simp [updateScheduledBroadcast, h]
  · intro b h
    simp [cancelScheduledBroadcast, h]
  · intro b ok n now h
    simp [fireScheduledBroadcast, h]
  · intro b u now b' h
    by_cases hp : b.status = .pending
    · exact hp
    · simp [updateScheduledBroadcast, hp] at h
  · intro b b' h
    by_cases hp : b.status = .pending
    · exact hp
    · simp [cancelScheduledBroadcast, hp] at h

/-- Witness for C6: update, cancel and fire are each rejected on a
concrete broadcast already in status sent. -/
theorem c6_broadcast_status_machine_witness :
    updateScheduledBroadcast sentBroadcast emptyUpdate 0 =
      .error .notPending ∧
    cancelScheduledBroadcast sentBroadcast = .error .notPending ∧
    fireScheduledBroadcast sentBroadcast true 0 0 = .error .notPending :=
  ⟨c6_broadcast_status_machine.2.1 sentBroadcast emptyUpdate 0 (by decide),
    c6_broadcast_status_machine.2.2.1 sentBroadcast (by decide),
    c6_broadcast_status_machine.2.2.2.1 sentBroadcast true 0 0 (by decide)⟩

/-- C9: every member of the closed twelve-type enumeration has the
system default priority stated in the spec's table, and the map is
total (it is a total Lean function on the enumeration). -/
theorem c9_default_priorities_total_map :
    defaultPriority .device_offline = .high ∧
    defaultPriority .device_online = .low ∧
    defaultPriority .device_degraded = .medium ∧
    defaultPriority .anomaly_detected = .high ∧
    defaultPriority .high_latency = .medium ∧
    defaultPriority .packet_loss = .medium ∧
    defaultPriority .isp_issue = .high ∧
    defaultPriority .security_alert = .critical ∧
    defaultPriority .scheduled_maintenance = .low ∧
    defaultPriority .system_status = .low ∧
    defaultPriority .cartographer_down = .critical ∧
    defaultPriority .cartographer_up = .medium := by
  decide

/-- C7, evidence: the modelled server-side create rejects a broadcast
scheduled at now + 2 minutes under the 5-minute lead time; but the
client's minimum-datetime guard does NOT enforce the floor in every
browser timezone, because it truncates in UTC. At epoch instant 0 in a
UTC+01:00 browser the local time reads 60 minutes; the candidate naive
value 62 (local now + 2 minutes, denoting the instant 120000 ms, which
is below the 5-minute floor) is accepted by the guard, whose `min` is
only 5. -/
theorem c7_client_guard_not_timezone_safe :
    createScheduledBroadcast 0 120000 1 4 "window" "reboot"
        .scheduled_maintenance .medium "Europe/Paris" "owner" =
      .error .scheduleTooSoon ∧
    localNaiveMinutes 0 60 = 60 ∧
    guardAccepts 0 62 = true ∧
    instantOfNaive 62 60 = 120000 ∧
    (120000 : Int) < 0 + minimumLeadTimeMs := by
  refine ⟨?_, ?_, ?_, ?_, ?_⟩
  · simp [createScheduledBroadcast, minimumLeadTimeMs]
  · decide
  · decide
  · decide
  · decide

/-- Claim attempts on a non-pending status never win and never change
the status. -/
theorem runClaims_not_pending (n : Nat) (s : ScheduledBroadcastStatus)
    (hs : s ≠ .pending) : runClaims s n = (0, s) := by
  induction n with
  | zero => rfl
  | succ n ih => simp [runClaims, claimStep, hs, ih]

/-- C8: in every interleaving of concurrent sweep claim attempts on a
pending broadcast, exactly one attempt fires it (and none when no
attempt runs): the claim count equals min n 1, so two concurrent
sweeps observing the same due broadcast never both fire it. -/
theorem c8_claim_step_fires_once (n : Nat) :
    (runClaims .pending n).1 = min n 1 := by
  cases n with
  | zero => rfl
  | succ n =>
    have h := runClaims_not_pending n .sent (by decide)
    simp [runClaims, claimStep, h]

/-- The round trip truncates the instant to whole minutes. -/
theorem editRoundTrip_truncates (t offEast : Int) :
    editRoundTrip t offEast = t - t % msPerMinute := by
  simp only [editRoundTrip, instantOfNaive, localNaiveMinutes, msPerMinute]
  omega

/-- C10: opening the edit modal and saving without touching any field
sends an empty PATCH object when the stored `scheduled_at` is
minute-aligned (the UTC→local→UTC round trip is then the identity);
when the stored instant has nonzero seconds or milliseconds, the round
trip truncates them, so the otherwise unchanged save still carries a
`scheduled_at` (the truncated instant) and a `timezone` field. -/
theorem c10_unchanged_save_round_trip (b : ScheduledBroadcast)
    (off : Int) (tz : String) :
    (b.scheduled_at % msPerMinute = 0 →
      saveEditUpdate b (openEditForm b off) off tz = emptyUpdate) ∧
    (b.scheduled_at % msPerMinute ≠ 0 →
      (saveEditUpdate b (openEditForm b off) off tz).scheduled_at =
        some (b.scheduled_at - b.scheduled_at % msPerMinute) ∧
      (saveEditUpdate b (openEditForm b off) off tz).timezone = some tz) := by
  have hrt : instantOfNaive (openEditForm b off).scheduledAtNaive off =
      b.scheduled_at - b.scheduled_at % msPerMinute := by
    simpa [openEditForm, editRoundTrip] using
      editRoundTrip_truncates b.scheduled_at off
  constructor
  · intro h0
    simp [saveEditUpdate, openEditForm, emptyUpdate] at hrt ⊢
    simp [hrt, h0]
  · intro hne
    have hneq : b.scheduled_at - b.scheduled_at % msPerMinute ≠
        b.scheduled_at := by
      simp only [msPerMinute] at hne ⊢
      omega
    simp [saveEditUpdate, hrt, hneq]

/-- Witness for C10: the sample sent broadcast is minute-aligned
(1200000 ms) and an unchanged save yields the empty update; the sample
with 500 extra milliseconds yields an update carrying the truncated
`scheduled_at` 1200000 and the timezone. -/
theorem c10_unchanged_save_round_trip_witness :
    saveEditUpdate sentBroadcast (openEditForm sentBroadcast 120) 120
        "Europe/Paris" = emptyUpdate ∧
    (saveEditUpdate oddSecondsBroadcast
        (openEditForm oddSecondsBroadcast 120) 120
        "Europe/Paris").scheduled_at = some 1200000 ∧
    (saveEditUpdate oddSecondsBroadcast
        (openEditForm oddSecondsBroadcast 120) 120
        "Europe/Paris").timezone = some "Europe/Paris" := by
  refine ⟨?_, ?_, ?_⟩
  · exact (c10_unchanged_save_round_trip sentBroadcast 120 "Europe/Paris").1
      (by decide)
  · exact ((c10_unchanged_save_round_trip oddSecondsBroadcast 120
      "Europe/Paris").2 (by decide)).1
  · exact ((c10_unchanged_save_round_trip oddSecondsBroadcast 120
      "Europe/Paris").2 (by decide)).2

end Cartographer
